import Mathlib

/-!
# Verification of the SSH transport resolver (`libvirt/uri/ssh.go`)

A shallow embedding of the remote-transport resolver: `parseAuthMethods`,
`dialSSH`, `sshClient` and `proxyByEnvVar`.  All interactions with the
operating system and with third-party libraries (environment variables,
file reads, private-key parsing, the ssh-config lookup, the known-hosts
loader, network dials, the SSH handshake) are modelled by an oracle record
`World`; the resolver's own control flow is translated statement by
statement from the Go source.  Network-visible effects are recorded in an
event trace so that ordering claims ("fails before any dial") can be
stated.
-/

namespace SSHURI

/-- `u.Query().Get(k)`: a flat parameter map; an absent parameter reads as
the empty string (the only observation the Go code ever makes). -/
structure ConnectionURI where
  hostname : String
  /-- `u.Port()`; empty when the authority carries no port. -/
  port : String
  /-- `u.User.Username()`; empty when the userinfo carries no username. -/
  userUsername : String
  /-- `u.User.Password()`: `some pw` when the `(pw, ok)` pair has `ok = true`. -/
  userPassword : Option String
  query : String → String

/-- `u.Host`: the raw authority host component, `hostname:port` when a port
is present and the bare hostname otherwise (the `net/url` invariant). -/
def ConnectionURI.host (u : ConnectionURI) : String :=
  if u.port = "" then u.hostname else u.hostname ++ ":" ++ u.port

/-- A decoded ssh config file (`ssh_config.Decode` result); its only use is
the `Get(alias, key)` lookup, modelled as a fallible map. -/
structure SSHConfig where
  get : String → String → Except Unit String

/-- Oracle for every OS / third-party effect the resolver performs.  Each
field stands for one call site; connections, clients and dialers are
identified by `Nat` handles.  `none` / `false` is the call failing.  The
`ssh.ClientConfig` argument of `ssh.Dial` / `ssh.NewClientConn` is not an
input of the corresponding oracle: the model lets the environment's answer
depend only on the dialled address. -/
structure World where
  /-- `os.Getenv`. -/
  getenv : String → String
  /-- `os.ExpandEnv`. -/
  expandEnv : String → String
  /-- `net.Dial("unix", socket)` towards the SSH agent: does it succeed? -/
  agentDial : String → Bool
  /-- `os.ReadFile` (key file): file contents, or a read error. -/
  readFile : String → Option String
  /-- `ssh.ParsePrivateKey`: a parsed signer (identified by a string), or a
  parse error.  Note the caller appends a method even on `none`. -/
  parsePrivateKey : String → Option String
  /-- `os.Open` on the ssh config file path: does it succeed? -/
  openConfig : String → Bool
  /-- `ssh_config.Decode` of the successfully opened file at a path. -/
  decodeConfig : String → Option SSHConfig
  /-- `knownhosts.New`: the host-key matcher for the database at a path, or
  a load/parse error. -/
  knownHosts : String → Option (String → Bool)
  /-- `user.Current().Username`, or a lookup error. -/
  currentUser : Option String
  /-- `os.Stat` on the expanded control socket path: does it succeed? -/
  controlStat : String → Bool
  /-- `net.Dial("unix", controlPath)`. -/
  controlUnixDial : String → Option Nat
  /-- `tssh.NewControlClientConn`. -/
  newControlClientConn : Nat → Option Nat
  /-- `sshControlClient.Dial("tcp", addr)`. -/
  controlChannelDial : Nat → String → Option Nat
  /-- `url.Parse` of the proxy URI: `(Scheme, Host)`, or a parse error. -/
  parseURL : String → Option (String × String)
  /-- `proxy.SOCKS5(scheme, host, nil, proxy.Direct)`: a dialer handle. -/
  socks5 : String → String → Option Nat
  /-- `dialer.Dial("tcp", target)` through the SOCKS proxy. -/
  socksDial : Nat → String → Option Nat
  /-- `ssh.Dial("tcp", addr, cfg)`: direct dial plus handshake. -/
  sshDial : String → Option Nat
  /-- `ssh.NewClientConn(conn, addr, cfg)`: the SSH handshake over an
  existing raw connection. -/
  newClientConn : Nat → String → Option Nat
  /-- `sshClient.Dial("unix", address)`: the final channel open to the
  remote libvirt socket. -/
  clientUnixDial : Nat → String → Option Nat
  /-- `(*Config).Get(alias, key)` invoked on the nil `*Config` left by a
  failed open/decode (ssh.go line 129 after a line 91/96 failure).  This
  call runs third-party library code that is outside the provided source
  slice, so its result is an oracle parameter of the world; the type
  cannot even express a panic of that call.  No theorem in this file may
  rely on this field to establish how the program behaves on the
  nil-config path. -/
  nilConfigGet : String → String → Except Unit String

/-- One materialized `ssh.AuthMethod`. -/
inductive SSHAuthMethod
  /-- `ssh.PublicKeysCallback(agentClient.Signers)` for the agent at a socket. -/
  | agentSigner (socket : String)
  /-- `ssh.PublicKeys(signer)`; `none` is the nil signer left by a failed
  `ssh.ParsePrivateKey` (the Go code appends it regardless). -/
  | publicKeys (signer : Option String)
  /-- `ssh.Password(pw)`. -/
  | password (pw : String)
deriving DecidableEq

/-- The host-key callback placed in the client configuration. -/
inductive HostKeyCallback
  /-- `ssh.InsecureIgnoreHostKey()`. -/
  | insecureIgnore
  /-- The callback produced by `knownhosts.New`, with its matcher. -/
  | fromKnownHosts (accept : String → Bool)

/-- Whether the callback accepts a presented host key. -/
def HostKeyCallback.accepts : HostKeyCallback → String → Bool
  | .insecureIgnore, _ => true
  | .fromKnownHosts f, k => f k

/-- `ssh.ClientConfig` (the fixed `Timeout` field carries no information at
this level of the model and is omitted). -/
structure ClientConfig where
  user : String
  hostKeyCallback : HostKeyCallback
  auth : List SSHAuthMethod

/-- The typed failures of the resolver, one per `return nil, err` site. -/
inductive SSHError
  /-- "could not configure SSH authentication methods". -/
  | noUsableAuthMethod
  /-- "failed to read ssh known hosts: %w". -/
  | trustStoreUnreadable
  /-- "unable to get username: %w". -/
  | usernameResolutionFailed
  /-- `ssh.Dial` failure on the direct path. -/
  | directDialFailed
  /-- `os.Stat` failure on the control socket path. -/
  | controlStatFailed
  /-- `net.Dial("unix", ...)` failure on the control socket. -/
  | controlDialFailed
  /-- `tssh.NewControlClientConn` failure. -/
  | controlClientConnFailed
  /-- `sshControlClient.Dial` failure. -/
  | controlChannelDialFailed
  /-- `url.Parse` failure on the proxy URI. -/
  | proxyURLParseFailed
  /-- `proxy.SOCKS5` failure. -/
  | socksProxyFailed
  /-- `dialer.Dial` failure through the proxy. -/
  | socksDialFailed
  /-- `ssh.NewClientConn` (handshake) failure. -/
  | handshakeFailed
  /-- "failed to connect to libvirt on the remote host: %w". -/
  | remoteSocketUnreachable
deriving DecidableEq

/-- How a `dialSSH` invocation terminates.  `fatal` models the
`log.Fatal(err)` on line 151: the process exits instead of returning. -/
inductive DialResult
  | ok (conn : Nat)
  | err (e : SSHError)
  | fatal (e : SSHError)
deriving DecidableEq

/-- Network-visible effects of the resolver, in program order. -/
inductive Event
  /-- `ssh.Dial("tcp", addr, cfg)` on the direct path. -/
  | sshDialDirect (addr : String)
  /-- `os.Stat` on the expanded control path. -/
  | controlStat (path : String)
  /-- `net.Dial("unix", path)` to the control socket. -/
  | controlUnixDial (path : String)
  /-- `sshControlClient.Dial("tcp", addr)` through the control channel. -/
  | controlChannelDial (addr : String)
  /-- `dialer.Dial("tcp", target)` through the SOCKS proxy at `proxyHost`. -/
  | proxySocksDial (proxyHost : String) (target : String)
  /-- `ssh.NewClientConn(conn, addr, cfg)`: the SSH handshake. -/
  | handshake (addr : String)
  /-- `sshClient.Dial("unix", addr)`: the final remote channel open. -/
  | remoteUnixDial (addr : String)
deriving DecidableEq

/-- Is the event a dial on the proxy path? -/
def Event.isProxyDial : Event → Bool
  | .proxySocksDial _ _ => true
  | _ => false

/-- Is the event the direct TCP dial? -/
def Event.isDirectDial : Event → Bool
  | .sshDialDirect _ => true
  | _ => false

/-- Is the event part of the control-channel path? -/
def Event.isControlEvent : Event → Bool
  | .controlStat _ => true
  | .controlUnixDial _ => true
  | .controlChannelDial _ => true
  | _ => false

def defaultSSHPort : String := "22"
def defaultSSHKeyPath : String := "${HOME}/.ssh/id_rsa"
def defaultSSHKnownHostsPath : String := "${HOME}/.ssh/known_hosts"
def defaultSSHConfigFile : String := "${HOME}/.ssh/config"
def defaultSSHAuthMethods : String := "agent,privkey"

/-- Modelled from the spec: the well-known default remote libvirt socket
path (`defaultUnixSock` is declared elsewhere in the repository, outside
the provided source slice; no claim depends on its literal value). -/
def defaultUnixSock : String := "/var/run/libvirt/libvirt-sock"

/-- `strings.Split` on a single-character separator, over the character
list: every occurrence of `sep` starts a new group, and the empty input
yields one empty group (as in Go).  Written with structural recursion so
that terms evaluate inside the kernel. -/
def splitChars (sep : Char) : List Char → List (List Char)
  | [] => [[]]
  | c :: rest =>
    match splitChars sep rest with
    | [] => if c = sep then [[], []] else [[c]]
    | g :: gs => if c = sep then [] :: g :: gs else (c :: g) :: gs

/-- `strings.Split(s, string(sep))` for a one-character separator. -/
def splitString (sep : Char) (s : String) : List String :=
  (splitChars sep s.data).map String.mk

/-- The `sshauth` parameter with its default (lines 31–34). -/
def sshauthOf (u : ConnectionURI) : String :=
  if u.query "sshauth" = "" then defaultSSHAuthMethods else u.query "sshauth"

/-- The `keyfile` parameter with its default (lines 36–39). -/
def keyfileOf (u : ConnectionURI) : String :=
  if u.query "keyfile" = "" then defaultSSHKeyPath else u.query "keyfile"

/-- `strings.Split(authMethods, ",")` (line 41). -/
def authIds (u : ConnectionURI) : List String :=
  splitString ',' (sshauthOf u)

/-- One iteration of the `switch` in `parseAuthMethods` (lines 43–79):
`some m` when the case appends the method `m`, `none` when it `continue`s
(agent socket unset or agent dial failed; key file unreadable; password
absent from the userinfo; unknown identifier).  Note the `privkey` case:
a read failure skips, but a parse failure of material that was read still
appends `ssh.PublicKeys(signer)` with the nil signer (lines 65–69 carry no
`continue` after the error log). -/
def materializeAuth (u : ConnectionURI) (w : World) (keyPath : String) (v : String) :
    Option SSHAuthMethod :=
  if v = "agent" then
    let socket := w.getenv "SSH_AUTH_SOCK"
    if socket = "" then none
    else if w.agentDial socket then some (.agentSigner socket) else none
  else if v = "privkey" then
    match w.readFile (w.expandEnv keyPath) with
    | none => none
    | some sshKey => some (.publicKeys (w.parsePrivateKey sshKey))
  else if v = "ssh-password" then
    match u.userPassword with
    | some pw => some (.password pw)
    | none => none
  else none

/-- One iteration of the `for` loop of `parseAuthMethods`: keep `result`
when the case skips, append the one materialized method otherwise. -/
def appendAuthStep (u : ConnectionURI) (w : World) (result : List SSHAuthMethod)
    (v : String) : List SSHAuthMethod :=
  match materializeAuth u w (keyfileOf u) v with
  | none => result
  | some m => result ++ [m]

/-- `(u *ConnectionURI) parseAuthMethods()` (lines 28–83): the `for` loop
over the split identifiers, appending each materialized method in order. -/
def parseAuthMethods (u : ConnectionURI) (w : World) : List SSHAuthMethod :=
  (authIds u).foldl (appendAuthStep u w) []

/-- The `ssh_config` parameter with its default (lines 87–90). -/
def sshConfigPathOf (u : ConnectionURI) : String :=
  if u.query "ssh_config" = "" then defaultSSHConfigFile else u.query "ssh_config"

/-- Lines 91–99: `os.Open` then `ssh_config.Decode`; either failure is only
logged, and the later code holds a nil/failed config (`none`). -/
def sshConfigOf (u : ConnectionURI) (w : World) : Option SSHConfig :=
  if w.openConfig (w.expandEnv (sshConfigPathOf u)) then
    w.decodeConfig (w.expandEnv (sshConfigPathOf u))
  else none

/-- `sshcfg.Get(host, key)`.  For a successfully decoded config this is
its lookup; for the nil config left by a failed open/decode it is the
world's `nilConfigGet` oracle — the behaviour of the third-party library
on a nil receiver is outside the provided source slice and is *not*
decided by this model. -/
def cfgGet (w : World) : Option SSHConfig → String → String → Except Unit String
  | none, host, key => w.nilConfigGet host key
  | some c, host, key => c.get host key

/-- The `knownhosts` parameter with its default (lines 106, 114–116). -/
def knownHostsPathOf (u : ConnectionURI) : String :=
  if u.query "knownhosts" = "" then defaultSSHKnownHostsPath else u.query "knownhosts"

/-- Lines 107–125: the verification switch (`no_verify` non-empty or
`known_hosts_verify=ignore` disables it) and the host-key callback;
`knownhosts.New` failure is the "failed to read ssh known hosts" error. -/
def buildHostKeyCallback (u : ConnectionURI) (w : World) :
    Except SSHError HostKeyCallback :=
  let knownHostsVerify := u.query "known_hosts_verify"
  let doVerify : Bool := u.query "no_verify" = ""
  let doVerify := if knownHostsVerify = "ignore" then false else doVerify
  if doVerify then
    match w.knownHosts (w.expandEnv (knownHostsPathOf u)) with
    | none => .error .trustStoreUnreadable
    | some db => .ok (.fromKnownHosts db)
  else .ok .insecureIgnore

/-- Lines 127–140: username priority.  The userinfo username wins when
non-empty; otherwise the config lookup keyed by `u.Host`; only when that
lookup errors does `user.Current()` run, whose failure is the "unable to
get username" error.  (A successful lookup is taken verbatim, even when it
returns the empty value.) -/
def resolveUsername (u : ConnectionURI) (w : World) (sshcfg : Option SSHConfig) :
    Except SSHError String :=
  if u.userUsername ≠ "" then .ok u.userUsername
  else
    match cfgGet w sshcfg u.host "User" with
    | .ok sshu => .ok sshu
    | .error _ =>
      match w.currentUser with
      | none => .error .usernameResolutionFailed
      | some name => .ok name

/-- `os.Getenv("HTTP_PROXY")`, falling back to `ALL_PROXY`
(lines 223–229). -/
def proxyByEnvVar (getenv : String → String) : String :=
  let proxyURL := getenv "HTTP_PROXY"
  if proxyURL ≠ "" then proxyURL else getenv "ALL_PROXY"

/-- `strings.Replace(s, "~", "$HOME", 1)` (line 180). -/
def replaceTildeOnce (s : String) : String :=
  match splitString '~' s with
  | [] => s
  | [x] => x
  | x :: y :: rest => x ++ "$HOME" ++ String.intercalate "~" (y :: rest)

/-- The expanded control socket path (line 180). -/
def controlPathExpanded (u : ConnectionURI) (w : World) : String :=
  w.expandEnv (replaceTildeOnce (u.query "SSHControlPath"))

/-- `fmt.Sprintf("%s:%s", u.Hostname(), port)` with the port defaulted to
22 (lines 171–174). -/
def sshAddress (u : ConnectionURI) : String :=
  u.hostname ++ ":" ++ (if u.port = "" then defaultSSHPort else u.port)

/-- `(u *ConnectionURI) sshClient(cfg)` (lines 167–221), with its event
trace.  Branch structure as in the source: direct dial when neither a
control path nor a proxy URI is present; otherwise the control-channel
branch when `SSHControlPath` is non-empty (its stat failure returns the
error — no fallback to the proxy); otherwise the SOCKS-proxy branch, whose
dial target is `u.Host` (not the defaulted `hostname:port`).  Both
indirect branches end in `ssh.NewClientConn` over the obtained raw
connection, addressed to `hostname:port`. -/
def sshClient (u : ConnectionURI) (w : World) (_cfg : ClientConfig) :
    Except SSHError Nat × List Event :=
  let sshControlPath := u.query "SSHControlPath"
  let proxyURI := proxyByEnvVar w.getenv
  let addr := sshAddress u
  if sshControlPath = "" ∧ proxyURI = "" then
    match w.sshDial addr with
    | none => (.error .directDialFailed, [.sshDialDirect addr])
    | some cli => (.ok cli, [.sshDialDirect addr])
  else if sshControlPath ≠ "" then
    let cp := controlPathExpanded u w
    if w.controlStat cp then
      match w.controlUnixDial cp with
      | none => (.error .controlDialFailed, [.controlStat cp, .controlUnixDial cp])
      | some conn =>
        match w.newControlClientConn conn with
        | none => (.error .controlClientConnFailed, [.controlStat cp, .controlUnixDial cp])
        | some ctl =>
          match w.controlChannelDial ctl addr with
          | none =>
            (.error .controlChannelDialFailed,
              [.controlStat cp, .controlUnixDial cp, .controlChannelDial addr])
          | some pconn =>
            match w.newClientConn pconn addr with
            | none =>
              (.error .handshakeFailed,
                [.controlStat cp, .controlUnixDial cp, .controlChannelDial addr,
                 .handshake addr])
            | some cli =>
              (.ok cli,
                [.controlStat cp, .controlUnixDial cp, .controlChannelDial addr,
                 .handshake addr])
    else (.error .controlStatFailed, [.controlStat cp])
  else
    match w.parseURL proxyURI with
    | none => (.error .proxyURLParseFailed, [])
    | some su =>
      match w.socks5 su.1 su.2 with
      | none => (.error .socksProxyFailed, [])
      | some dialer =>
        match w.socksDial dialer u.host with
        | none => (.error .socksDialFailed, [.proxySocksDial su.2 u.host])
        | some pconn =>
          match w.newClientConn pconn addr with
          | none =>
            (.error .handshakeFailed, [.proxySocksDial su.2 u.host, .handshake addr])
          | some cli =>
            (.ok cli, [.proxySocksDial su.2 u.host, .handshake addr])

/-- The branch conditions of `sshClient` (lines 175–199) as a pure
transport-path selection, for stating the priority-chain property. -/
inductive TransportPath
  | direct
  | viaControlChannel (path : String)
  | viaProxy (addr : String)
deriving DecidableEq

/-- Which transport branch `sshClient` takes, as a function of the
configuration and the environment (exactly the source's conditions). -/
def selectTransportPath (u : ConnectionURI) (getenv : String → String) :
    TransportPath :=
  let cp := u.query "SSHControlPath"
  let pu := proxyByEnvVar getenv
  if cp = "" ∧ pu = "" then .direct
  else if cp ≠ "" then .viaControlChannel cp
  else .viaProxy pu

/-- The `socket` parameter with its default (lines 154–157). -/
def socketAddressOf (u : ConnectionURI) : String :=
  if u.query "socket" = "" then defaultUnixSock else u.query "socket"

/-- Lines 149–164: the tail of `dialSSH` after the client configuration is
assembled.  A `sshClient` failure hits `log.Fatal(err)` (modelled as the
`fatal` terminal); on success the final `sshClient.Dial("unix", address)`
either yields the stream or the "failed to connect to libvirt on the
remote host" error. -/
def establishAndDial (u : ConnectionURI) (w : World) (cfg : ClientConfig) :
    DialResult × List Event :=
  match sshClient u w cfg with
  | (.error e, tr) => (.fatal e, tr)
  | (.ok cli, tr) =>
    match w.clientUnixDial cli (socketAddressOf u) with
    | none => (.err .remoteSocketUnreachable, tr ++ [.remoteUnixDial (socketAddressOf u)])
    | some conn => (.ok conn, tr ++ [.remoteUnixDial (socketAddressOf u)])

/-- `(u *ConnectionURI) dialSSH()` (lines 85–165): open/decode the ssh
config (failures only logged), build the auth chain and fail fast when it
is empty, build the host-key callback, resolve the username, then
establish the session and open the remote channel. -/
def dialSSH (u : ConnectionURI) (w : World) : DialResult × List Event :=
  let sshcfg := sshConfigOf u w
  let authMethods := parseAuthMethods u w
  if authMethods.length < 1 then (.err .noUsableAuthMethod, [])
  else
    match buildHostKeyCallback u w with
    | .error e => (.err e, [])
    | .ok hostKeyCallback =>
      match resolveUsername u w sshcfg with
      | .error e => (.err e, [])
      | .ok username =>
        establishAndDial u w ⟨username, hostKeyCallback, authMethods⟩

/-- The unviable auth-chain entries named by the specification: an agent
entry whose socket variable is unset or whose agent dial fails, a
private-key entry whose key file cannot be read, a password entry with no
password in the userinfo, and an unknown identifier.  (A key file that is
read but fails to parse is *not* in this list: the source appends a method
for it.) -/
def unviableAuthEntry (u : ConnectionURI) (w : World) (v : String) : Prop :=
  (v = "agent" ∧
    (w.getenv "SSH_AUTH_SOCK" = "" ∨ w.agentDial (w.getenv "SSH_AUTH_SOCK") = false))
  ∨ (v = "privkey" ∧ w.readFile (w.expandEnv (keyfileOf u)) = none)
  ∨ (v = "ssh-password" ∧ u.userPassword = none)
  ∨ (v ≠ "agent" ∧ v ≠ "privkey" ∧ v ≠ "ssh-password")

/-! ### Concrete instances used by witnesses and counterexamples -/

/-- A world in which every effectful operation fails and every environment
variable is unset. -/
def failWorld : World where
  getenv := fun _ => ""
  expandEnv := id
  agentDial := fun _ => false
  readFile := fun _ => none
  parsePrivateKey := fun _ => none
  openConfig := fun _ => false
  decodeConfig := fun _ => none
  knownHosts := fun _ => none
  currentUser := none
  controlStat := fun _ => false
  controlUnixDial := fun _ => none
  newControlClientConn := fun _ => none
  controlChannelDial := fun _ _ => none
  parseURL := fun _ => none
  socks5 := fun _ _ => none
  socksDial := fun _ _ => none
  sshDial := fun _ => none
  newClientConn := fun _ _ => none
  clientUnixDial := fun _ _ => none
  nilConfigGet := fun _ _ => .error ()

/-- A bare descriptor for host `h1` with no port, no userinfo and no
query parameters. -/
def bareURI : ConnectionURI where
  hostname := "h1"
  port := ""
  userUsername := ""
  userPassword := none
  query := fun _ => ""

/-- An arbitrary client configuration for exercising `sshClient`. -/
def emptyClientConfig : ClientConfig := ⟨"", .insecureIgnore, []⟩

/-- C1 failing input: password auth, verification disabled, user `bob`,
and a failing direct TCP dial. -/
def uriC1 : ConnectionURI :=
  { bareURI with
    userUsername := "bob"
    userPassword := some "secret"
    query := fun k =>
      if k = "sshauth" then "ssh-password" else if k = "no_verify" then "1" else "" }

/-- C2 witness input: a single unknown auth identifier, so the chain is
empty. -/
def uriC2 : ConnectionURI :=
  { bareURI with query := fun k => if k = "sshauth" then "bogus" else "" }

/-- C3 witness input: a configured control path. -/
def uriC3 : ConnectionURI :=
  { bareURI with query := fun k => if k = "SSHControlPath" then "/tmp/ctl" else "" }

/-- C3 witness world: the control path stats successfully while a proxy
environment variable is also set. -/
def worldC3 : World :=
  { failWorld with
    getenv := fun k => if k = "ALL_PROXY" then "socks5://127.0.0.1:1080" else ""
    controlStat := fun _ => true }

/-- C4 witness input: `no_verify` carried in the descriptor. -/
def uriC4 : ConnectionURI :=
  { bareURI with query := fun k => if k = "no_verify" then "1" else "" }

/-- C5 witness input: an ordering with an unviable agent entry, a viable
password entry and an unknown identifier. -/
def uriC5 : ConnectionURI :=
  { bareURI with
    userPassword := some "pw"
    query := fun k => if k = "sshauth" then "agent,ssh-password,bogus" else "" }

/-- C6 failing input: a lone `privkey` entry. -/
def uriC6 : ConnectionURI :=
  { bareURI with query := fun k => if k = "sshauth" then "privkey" else "" }

/-- C6 failing world: the key file reads successfully but its material
fails to parse. -/
def worldC6 : World :=
  { failWorld with readFile := fun _ => some "garbage" }

/-- C7 counterexample input: an explicit port, so `u.Host` is
`h1:2222` while the hostname is `h1`. -/
def uriC7 : ConnectionURI := { bareURI with port := "2222" }

/-- C7 counterexample config file: the `User` directive differs between
the bare hostname and the host:port key. -/
def cfgC7 : SSHConfig :=
  ⟨fun host key =>
    if host = "h1" ∧ key = "User" then .ok "alice"
    else if host = "h1:2222" ∧ key = "User" then .ok "bob"
    else .error ()⟩

/-- C8 world: no control path, `ALL_PROXY` set, and a SOCKS proxy that
relays only a dial to the portless target `h1`. -/
def worldC8 : World :=
  { failWorld with
    getenv := fun k => if k = "ALL_PROXY" then "socks5://127.0.0.1:1080" else ""
    parseURL := fun s =>
      if s = "socks5://127.0.0.1:1080" then some ("socks5", "127.0.0.1:1080") else none
    socks5 := fun _ _ => some 1
    socksDial := fun _ t => if t = "h1" then some 2 else none
    newClientConn := fun _ _ => some 3 }

/-- C9 witness input: password auth available, verification enabled. -/
def uriC9 : ConnectionURI :=
  { bareURI with
    userPassword := some "pw"
    query := fun k => if k = "sshauth" then "ssh-password" else "" }

/-! ### Theorems -/

/-- The append-style fold of the auth loop is a `filterMap`. -/
theorem foldl_appendAuthStep_eq_filterMap (u : ConnectionURI) (w : World) (l : List String) :
    ∀ acc : List SSHAuthMethod,
      l.foldl (appendAuthStep u w) acc
        = acc ++ l.filterMap (materializeAuth u w (keyfileOf u)) := by
  induction l with
  | nil => intro acc; simp
  | cons v rest ih =>
    intro acc
    cases h : materializeAuth u w (keyfileOf u) v <;>
      simp [appendAuthStep, h, ih, List.filterMap_cons]

/-- `parseAuthMethods` is the in-order `filterMap` of entry
materialization over the configured identifiers. -/
theorem parseAuthMethods_eq_filterMap (u : ConnectionURI) (w : World) :
    parseAuthMethods u w = (authIds u).filterMap (materializeAuth u w (keyfileOf u)) := by
  unfold parseAuthMethods
  simpa using foldl_appendAuthStep_eq_filterMap u w (authIds u) []

/-- C2: a descriptor whose configured auth-method list materializes zero
usable methods makes `dialSSH` fail with the NoUsableAuthMethod error
("could not configure SSH authentication methods"), with an empty event
trace — so before any network dial to the target is attempted. -/
theorem dialSSH_failfast_no_auth (u : ConnectionURI) (w : World)
    (h : parseAuthMethods u w = []) :
    dialSSH u w = (.err .noUsableAuthMethod, []) := by
  simp [dialSSH, h]

/-- Witness for C2: an auth list consisting of one unknown identifier
yields no methods, and resolution fails fast with no dial event. -/
theorem dialSSH_failfast_no_auth_witness :
    parseAuthMethods uriC2 failWorld = [] ∧
      dialSSH uriC2 failWorld = (.err .noUsableAuthMethod, []) :=
  ⟨by decide, dialSSH_failfast_no_auth uriC2 failWorld (by decide)⟩

/-- C9: with host-key verification enabled (`no_verify` absent and
`known_hosts_verify` not `ignore`) and an unreadable known-hosts store,
`dialSSH` fails with the TrustStoreUnreadable error ("failed to read ssh
known hosts") and an empty trace — before any transport dial.  (The auth
chain must be non-empty, otherwise the earlier fail-fast check fires
first.) -/
theorem dialSSH_trustStoreUnreadable (u : ConnectionURI) (w : World)
    (h1 : u.query "no_verify" = "")
    (h2 : u.query "known_hosts_verify" ≠ "ignore")
    (h3 : w.knownHosts (w.expandEnv (knownHostsPathOf u)) = none)
    (h4 : parseAuthMethods u w ≠ []) :
    dialSSH u w = (.err .trustStoreUnreadable, []) := by
  have hcb : buildHostKeyCallback u w = .error .trustStoreUnreadable := by
    simp [buildHostKeyCallback, h1, h2, h3]
  have hlen : ¬ (parseAuthMethods u w).length < 1 := by
    simpa [Nat.lt_one_iff, List.length_eq_zero] using h4
  simp [dialSSH, hlen, hcb]

/-- Witness for C9: password auth configured, verification on, and a world
whose known-hosts loader fails. -/
theorem dialSSH_trustStoreUnreadable_witness :
    dialSSH uriC9 failWorld = (.err .trustStoreUnreadable, []) :=
  dialSSH_trustStoreUnreadable uriC9 failWorld rfl (by decide) rfl (by decide)

/-- C4: with `known_hosts_verify=ignore` or with the `no_verify` parameter
carried by the descriptor, the host-key callback built for the session is
`ssh.InsecureIgnoreHostKey()`, which accepts every presented host key —
including one matching no known-hosts entry. -/
theorem insecure_mode_accepts_all (u : ConnectionURI) (w : World)
    (h : u.query "known_hosts_verify" = "ignore" ∨ u.query "no_verify" ≠ "") :
    buildHostKeyCallback u w = .ok .insecureIgnore ∧
      ∀ k, HostKeyCallback.accepts .insecureIgnore k = true := by
  refine ⟨?_, fun k => rfl⟩
  rcases h with h | h
  · simp [buildHostKeyCallback, h]
  · by_cases hig : u.query "known_hosts_verify" = "ignore" <;>
      simp [buildHostKeyCallback, h, hig]

/-- Witness for C4: `no_verify=1` produces the insecure callback, and it
accepts an arbitrary non-matching key. -/
theorem insecure_mode_accepts_all_witness :
    buildHostKeyCallback uriC4 failWorld = .ok .insecureIgnore ∧
      HostKeyCallback.accepts .insecureIgnore "unknown-host-key" = true :=
  ⟨(insecure_mode_accepts_all uriC4 failWorld (Or.inr (by decide))).1,
   (insecure_mode_accepts_all uriC4 failWorld (Or.inr (by decide))).2 "unknown-host-key"⟩

/-- C5: for an ordering with at least one viable entry, the chain builder
output is the order-preserving `filterMap` of per-entry materialization
(so relative order is preserved and exactly the unviable entries are
dropped), it is non-empty, and an entry materializes to nothing precisely
when it is unviable in the specification's sense: unavailable agent,
unreadable key file, missing password, or unknown identifier.  The
builder is total — no entry ever fails the whole chain. -/
theorem parseAuthMethods_order_exclusion (u : ConnectionURI) (w : World)
    (h : ∃ v ∈ authIds u, (materializeAuth u w (keyfileOf u) v).isSome) :
    parseAuthMethods u w = (authIds u).filterMap (materializeAuth u w (keyfileOf u)) ∧
      parseAuthMethods u w ≠ [] ∧
      ∀ v, (materializeAuth u w (keyfileOf u) v = none ↔ unviableAuthEntry u w v) := by
  refine ⟨parseAuthMethods_eq_filterMap u w, ?_, ?_⟩
  · rcases h with ⟨v, hv, hsome⟩
    rcases Option.isSome_iff_exists.mp hsome with ⟨m, hm⟩
    have hmem : m ∈ (authIds u).filterMap (materializeAuth u w (keyfileOf u)) :=
      List.mem_filterMap.mpr ⟨v, hv, hm⟩
    rw [parseAuthMethods_eq_filterMap]
    exact List.ne_nil_of_mem hmem
  · intro v
    by_cases h1 : v = "agent"
    · subst h1
      by_cases h2 : w.getenv "SSH_AUTH_SOCK" = ""
      · simp [materializeAuth, unviableAuthEntry, h2]
      · cases h3 : w.agentDial (w.getenv "SSH_AUTH_SOCK") <;>
          simp [materializeAuth, unviableAuthEntry, h2, h3]
    · by_cases h2 : v = "privkey"
      · subst h2
        cases h3 : w.readFile (w.expandEnv (keyfileOf u)) <;>
          simp [materializeAuth, unviableAuthEntry, h3]
      · by_cases h3 : v = "ssh-password"
        · subst h3
          cases h4 : u.userPassword <;>
            simp [materializeAuth, unviableAuthEntry, h4]
        · simp [materializeAuth, unviableAuthEntry, h1, h2, h3]

/-- Witness for C5: the ordering `agent,ssh-password,bogus` (agent socket
unset, password present) keeps exactly the password method, and the
unknown identifier `bogus` is characterized as unviable. -/
theorem parseAuthMethods_order_exclusion_witness :
    (parseAuthMethods uriC5 failWorld =
      (authIds uriC5).filterMap (materializeAuth uriC5 failWorld (keyfileOf uriC5))) ∧
      parseAuthMethods uriC5 failWorld ≠ [] ∧
      (materializeAuth uriC5 failWorld (keyfileOf uriC5) "bogus" = none ↔
        unviableAuthEntry uriC5 failWorld "bogus") := by
  have h := parseAuthMethods_order_exclusion uriC5 failWorld
    ⟨"ssh-password", by decide, by decide⟩
  exact ⟨h.1, h.2.1, h.2.2 "bogus"⟩

/-- C6 (code evaluated at the failing input): with a lone `privkey` entry
whose key file reads successfully but fails to parse, the chain builder
still appends `ssh.PublicKeys(signer)` holding the nil signer of the
failed parse — the broken credential is registered, not skipped. -/
theorem parseAuthMethods_appends_failed_parse :
    parseAuthMethods uriC6 worldC6 = [.publicKeys none] := by decide

/-- C1 (code evaluated at the failing input): when the transport/session
step (`sshClient`) fails — here the direct TCP dial to `h1:22` fails —
`dialSSH` reaches `log.Fatal(err)` (line 151), modelled by the `fatal`
terminal: the process exits instead of a typed error being returned to
the caller. -/
theorem dialSSH_fatal_on_transport_failure :
    dialSSH uriC1 failWorld = (.fatal .directDialFailed, [.sshDialDirect "h1:22"]) := by
  decide

/-- C3: transport selection is a priority chain, first applicable wins.
A configured control path that stats successfully selects the
control-channel branch — for every environment, so in particular even
when a proxy variable is also set — and that branch performs no proxy or
direct dial.  With no control path and a discoverable proxy the proxy
branch is selected (with `HTTP_PROXY` consulted before `ALL_PROXY`).
With neither, the transport is exactly one direct TCP dial to
`hostname:port` with the port defaulting to 22. -/
theorem transport_priority_chain (u : ConnectionURI) (w : World) (c : ClientConfig) :
    (u.query "SSHControlPath" ≠ "" → w.controlStat (controlPathExpanded u w) = true →
      selectTransportPath u w.getenv = .viaControlChannel (u.query "SSHControlPath") ∧
        ((sshClient u w c).2.all fun e => !e.isProxyDial && !e.isDirectDial) = true) ∧
    (u.query "SSHControlPath" = "" → proxyByEnvVar w.getenv ≠ "" →
      selectTransportPath u w.getenv = .viaProxy (proxyByEnvVar w.getenv) ∧
        ((sshClient u w c).2.all fun e => !e.isControlEvent && !e.isDirectDial) = true) ∧
    (w.getenv "HTTP_PROXY" ≠ "" → proxyByEnvVar w.getenv = w.getenv "HTTP_PROXY") ∧
    (w.getenv "HTTP_PROXY" = "" → proxyByEnvVar w.getenv = w.getenv "ALL_PROXY") ∧
    (u.query "SSHControlPath" = "" → proxyByEnvVar w.getenv = "" →
      selectTransportPath u w.getenv = .direct ∧
        (sshClient u w c).2 = [.sshDialDirect (sshAddress u)] ∧
        sshAddress u = u.hostname ++ ":" ++ (if u.port = "" then "22" else u.port)) := by
  refine ⟨?_, ?_, ?_, ?_, ?_⟩
  · intro hcp hstat
    refine ⟨by simp [selectTransportPath, hcp], ?_⟩
    simp only [sshClient]
    rw [if_neg (by simp [hcp]), if_pos hcp, hstat]
    simp only [if_true]
    cases h1 : w.controlUnixDial (controlPathExpanded u w) with
    | none => simp [h1, Event.isProxyDial, Event.isDirectDial]
    | some conn =>
      cases h2 : w.newControlClientConn conn with
      | none => simp [h1, h2, Event.isProxyDial, Event.isDirectDial]
      | some ctl =>
        cases h3 : w.controlChannelDial ctl (sshAddress u) with
        | none => simp [h1, h2, h3, Event.isProxyDial, Event.isDirectDial]
        | some pconn =>
          cases h4 : w.newClientConn pconn (sshAddress u) with
          | none => simp [h1, h2, h3, h4, Event.isProxyDial, Event.isDirectDial]
          | some cli => simp [h1, h2, h3, h4, Event.isProxyDial, Event.isDirectDial]
  · intro hcp hpu
    refine ⟨by simp [selectTransportPath, hcp, hpu], ?_⟩
    simp only [sshClient]
    rw [if_neg (by simp [hpu]), if_neg (by simp [hcp])]
    cases h1 : w.parseURL (proxyByEnvVar w.getenv) with
    | none => simp [h1]
    | some su =>
      cases h2 : w.socks5 su.1 su.2 with
      | none => simp [h1, h2]
      | some dialer =>
        cases h3 : w.socksDial dialer u.host with
        | none => simp [h1, h2, h3, Event.isControlEvent, Event.isDirectDial]
        | some pconn =>
          cases h4 : w.newClientConn pconn (sshAddress u) with
          | none => simp [h1, h2, h3, h4, Event.isControlEvent, Event.isDirectDial]
          | some cli => simp [h1, h2, h3, h4, Event.isControlEvent, Event.isDirectDial]
  · intro h
    simp [proxyByEnvVar, h]
  · intro h
    simp [proxyByEnvVar, h]
  · intro hcp hpu
    refine ⟨by simp [selectTransportPath, hcp, hpu], ?_, rfl⟩
    simp only [sshClient]
    rw [if_pos ⟨hcp, hpu⟩]
    cases h1 : w.sshDial (sshAddress u) <;> simp

/-- Witness for C3: with `SSHControlPath=/tmp/ctl` statting successfully
and `ALL_PROXY` also set, the control-channel path is selected and no
proxy or direct dial occurs. -/
theorem transport_priority_chain_witness :
    selectTransportPath uriC3 worldC3.getenv = .viaControlChannel "/tmp/ctl" ∧
      ((sshClient uriC3 worldC3 emptyClientConfig).2.all
        fun e => !e.isProxyDial && !e.isDirectDial) = true :=
  (transport_priority_chain uriC3 worldC3 emptyClientConfig).1 (by decide) (by decide)

/-- C7 (amended): username priority with first match winning — the
userinfo username is used unconditionally; otherwise the `User` directive
looked up with the descriptor's host component `u.Host` (`host:port` when
a port is present, not the bare hostname); otherwise, when that lookup
errors, the OS account name; and when the OS lookup also fails the whole
resolution fails with the UsernameResolutionFailed error, with no further
fallback. -/
theorem resolveUsername_priority (u : ConnectionURI) (w : World) (c : Option SSHConfig) :
    (u.userUsername ≠ "" → resolveUsername u w c = .ok u.userUsername) ∧
    (∀ s, u.userUsername = "" → cfgGet w c u.host "User" = .ok s →
      resolveUsername u w c = .ok s) ∧
    (∀ n, u.userUsername = "" → cfgGet w c u.host "User" = .error () →
      w.currentUser = some n → resolveUsername u w c = .ok n) ∧
    (u.userUsername = "" → cfgGet w c u.host "User" = .error () → w.currentUser = none →
      resolveUsername u w c = .error .usernameResolutionFailed) := by
  refine ⟨?_, ?_, ?_, ?_⟩ <;> intros <;> simp_all [resolveUsername]

/-- Witness for C7's amended claim: a userinfo username `alice` wins even
though the config file carries `bob` for the host. -/
theorem resolveUsername_priority_witness :
    resolveUsername { uriC7 with userUsername := "alice" } failWorld (some cfgC7) =
      .ok "alice" :=
  (resolveUsername_priority { uriC7 with userUsername := "alice" } failWorld
    (some cfgC7)).1 (by decide)

/-- Counterexample to C7 as stated: with port `2222`, the config lookup
is keyed by `u.Host = "h1:2222"`, not by the hostname `h1` — the
directive stored under the bare hostname (`alice`) is ignored and the one
under the host:port key (`bob`) is used. -/
theorem resolveUsername_hostKey_counterexample :
    cfgC7.get "h1" "User" = .ok "alice" ∧
      uriC7.hostname = "h1" ∧
      resolveUsername uriC7 failWorld (some cfgC7) = .ok "bob" ∧
      ("bob" : String) ≠ "alice" := by
  exact ⟨rfl, rfl, rfl, by decide⟩

/-- C8 (amended): with no control path and a proxy discovered from the
environment, `sshClient` takes the proxy branch: it builds a SOCKS dialer
for the parsed proxy address, dials through it to the descriptor's raw
host component `u.Host` (host:port only when a port is explicitly
present; the default port 22 is not applied to this dial target), and
runs the session handshake over the obtained connection, addressed to
`hostname:port` with the port defaulted. -/
theorem sshClient_proxy_path (u : ConnectionURI) (w : World) (c : ClientConfig)
    (sch ph : String) (d pconn : Nat)
    (h1 : u.query "SSHControlPath" = "")
    (h2 : proxyByEnvVar w.getenv ≠ "")
    (h3 : w.parseURL (proxyByEnvVar w.getenv) = some (sch, ph))
    (h4 : w.socks5 sch ph = some d)
    (h5 : w.socksDial d u.host = some pconn) :
    sshClient u w c =
      ((match w.newClientConn pconn (sshAddress u) with
        | none => Except.error SSHError.handshakeFailed
        | some cli => Except.ok cli),
       [.proxySocksDial ph u.host, .handshake (sshAddress u)]) := by
  cases h6 : w.newClientConn pconn (sshAddress u) <;>
    simp [sshClient, h1, h2, h3, h4, h5, h6]

/-- Witness for C8's amended claim: `ALL_PROXY=socks5://127.0.0.1:1080`
and no control path lead to a SOCKS dial through `127.0.0.1:1080` to the
portless target `h1` and a handshake addressed to `h1:22`. -/
theorem sshClient_proxy_path_witness :
    sshClient bareURI worldC8 emptyClientConfig =
      (.ok 3, [.proxySocksDial "127.0.0.1:1080" "h1", .handshake "h1:22"]) := by
  rw [sshClient_proxy_path bareURI worldC8 emptyClientConfig "socks5" "127.0.0.1:1080"
    1 2 rfl (by decide) rfl rfl rfl]
  rfl

/-- Counterexample to C8 as stated: for a descriptor with no explicit
port, the SOCKS dial through the proxy targets the bare host `h1`, not
the defaulted `host:port` address `h1:22`. -/
theorem sshClient_proxy_no_default_port_counterexample :
    (sshClient bareURI worldC8 emptyClientConfig).2 =
      [.proxySocksDial "127.0.0.1:1080" "h1", .handshake "h1:22"] ∧
      bareURI.host = "h1" ∧ sshAddress bareURI = "h1:22" ∧
      ("h1" : String) ≠ "h1:22" := by
  exact ⟨by decide, rfl, rfl, by decide⟩

end SSHURI
